import Mathlib

/-!
Verification of the prediction engine of the together-benchmark-model
repository (backend/src/server.ts, class ModelingService).

JavaScript numbers are modelled by exact rationals (ℚ): the algorithms are
plain field arithmetic, every `x || 0` / `x || 0.5` coalescing of a missing
or zero value is modelled through `Option ℚ`, and the `isFinite` guards are
vacuous over ℚ (noted where they occur in the source).  `Math.sqrt` followed
by a comparison against the constants 0.1 / 0.3 in the confidence scorer is
represented by comparing the squared distance against the squared constants,
which is equivalent because sqrt is strictly monotone on nonnegatives and
commutes with minima.
-/

namespace TogetherModel

/-- The 25 predicted statistics of a ModelingResult (24 metric statistics
plus job-level throughput), as listed in the metric arrays of
performSimpleAveraging / performPolynomialInterpolation /
performMultivariateInterpolation. -/
inductive Metric
  | ttft_mean | ttft_stdev | ttft_p05 | ttft_p50 | ttft_p80 | ttft_p95 | ttft_p99 | ttft_p999
  | user_tps_mean | user_tps_stdev | user_tps_p05 | user_tps_p50 | user_tps_p80 | user_tps_p95
  | user_tps_p99 | user_tps_p999
  | e2e_mean | e2e_stdev | e2e_p05 | e2e_p50 | e2e_p80 | e2e_p95 | e2e_p99 | e2e_p999
  | throughput
deriving DecidableEq, Fintype, Repr

/-- One aggregated benchmark observation (one row of the grouped query in
predictPerformance): input/output token averages, an optional traffic level,
and the metric statistics.  A statistic read as `(b[metric] as number) || 0`
in the source is a `Option ℚ` here, missing values read as 0. -/
structure Obs where
  input_avg_len : ℚ
  output_avg_len : ℚ
  traffic_level : Option ℚ
  stats : Metric → Option ℚ

/-- Reading a statistic from an observation: `(b[metric] as number) || 0`. -/
def statD (o : Obs) (m : Metric) : ℚ := (o.stats m).getD 0

/-- The four requestable prediction methods. -/
inductive PredictionMethod
  | auto_detect | polynomial | linear | average
deriving DecidableEq, Repr

/-- Confidence label attached to a prediction. -/
inductive Confidence
  | high | medium | low
deriving DecidableEq, Repr

/-- A modeling request (the DB lookup by model name is outside the core:
the observation list is passed in directly). -/
structure ModelingRequest where
  model : String
  input_tokens : ℚ
  output_tokens : ℚ
  traffic_level : Option ℚ := none
  method : Option PredictionMethod := none

/-- A modeling result. -/
structure ModelingResult where
  model : String
  input_tokens : ℚ
  output_tokens : ℚ
  predictions : Metric → ℚ
  confidence : Confidence
  num_benchmarks_used : ℕ
  interpolation_method : String

/-- The singularity threshold 1e-10 used by fitLinearModel and the
Gauss-Seidel solver. -/
def eps : ℚ := 1 / 10 ^ 10

/-- JavaScript Math.round: round half up to the nearest integer. -/
def jsRound (q : ℚ) : ℤ := ⌊q + 1 / 2⌋

/- ---------------------------------------------------------------------
fitLinearModel (2-feature closed-form least squares), server.ts 785-846.
The running sums of the source's first loop are expressed as list sums;
the second loop's centered sums become the var/cov definitions below.
--------------------------------------------------------------------- -/

/-- Mean of the input token feature: sumX1 / n. -/
def meanX1 (data : List Obs) : ℚ := (data.map (·.input_avg_len)).sum / data.length

/-- Mean of the output token feature: sumX2 / n. -/
def meanX2 (data : List Obs) : ℚ := (data.map (·.output_avg_len)).sum / data.length

/-- Mean of the target statistic: sumY / n. -/
def meanY (data : List Obs) (m : Metric) : ℚ := (data.map (statD · m)).sum / data.length

/-- Centered sum of squares of the input feature (varX1 in the source). -/
def varX1 (data : List Obs) : ℚ :=
  (data.map (fun o => (o.input_avg_len - meanX1 data) * (o.input_avg_len - meanX1 data))).sum

/-- Centered sum of squares of the output feature (varX2 in the source). -/
def varX2 (data : List Obs) : ℚ :=
  (data.map (fun o => (o.output_avg_len - meanX2 data) * (o.output_avg_len - meanX2 data))).sum

/-- Centered cross sum of the two features (covX1X2 in the source). -/
def covX1X2 (data : List Obs) : ℚ :=
  (data.map (fun o => (o.input_avg_len - meanX1 data) * (o.output_avg_len - meanX2 data))).sum

/-- Centered cross sum of the input feature with the statistic (covX1Y). -/
def covX1Y (data : List Obs) (m : Metric) : ℚ :=
  (data.map (fun o => (o.input_avg_len - meanX1 data) * (statD o m - meanY data m))).sum

/-- Centered cross sum of the output feature with the statistic (covX2Y). -/
def covX2Y (data : List Obs) (m : Metric) : ℚ :=
  (data.map (fun o => (o.output_avg_len - meanX2 data) * (statD o m - meanY data m))).sum

/-- Determinant of the 2x2 centered normal-equation system. -/
def linDenom (data : List Obs) : ℚ := varX1 data * varX2 data - covX1X2 data * covX1X2 data

/-- Coefficients returned by fitLinearModel. -/
structure LinCoeffs where
  intercept : ℚ
  inputCoeff : ℚ
  outputCoeff : ℚ
deriving DecidableEq, Repr

/-- fitLinearModel, server.ts 785-846: closed-form 2-feature least squares,
falling back to independent one-dimensional regressions when the system is
singular (|denom| not above 1e-10). -/
def fitLinearModel (data : List Obs) (m : Metric) : LinCoeffs :=
  let inputCoeff :=
    if eps < |linDenom data| then
      (covX1Y data m * varX2 data - covX2Y data m * covX1X2 data) / linDenom data
    else if 0 < varX1 data then covX1Y data m / varX1 data else 0
  let outputCoeff :=
    if eps < |linDenom data| then
      (covX2Y data m * varX1 data - covX1Y data m * covX1X2 data) / linDenom data
    else if 0 < varX2 data then covX2Y data m / varX2 data else 0
  { intercept := meanY data m - inputCoeff * meanX1 data - outputCoeff * meanX2 data
    inputCoeff := inputCoeff
    outputCoeff := outputCoeff }

/-- Evaluation of a 2-feature linear fit at a target point (as done at each
use site of fitLinearModel's coefficients). -/
def evalLin2 (c : LinCoeffs) (tin tout : ℚ) : ℚ :=
  c.intercept + c.inputCoeff * tin + c.outputCoeff * tout

/- ---------------------------------------------------------------------
solvePolynomial (Gauss-Seidel normal-equation solver), server.ts 744-783,
shared by fitPolynomialModel, fitPolynomialModel3D and fitLinearModel3D.
--------------------------------------------------------------------- -/

/-- Entry (i,j) of the Gram matrix XᵀX. -/
def xtxEntry (X : List (List ℚ)) (i j : ℕ) : ℚ :=
  (X.map (fun row => row.getD i 0 * row.getD j 0)).sum

/-- Entry i of the vector Xᵀy. -/
def xtyEntry (X : List (List ℚ)) (y : List ℚ) (i : ℕ) : ℚ :=
  ((X.zip y).map (fun p => p.1.getD i 0 * p.2)).sum

/-- One Gauss-Seidel update of coefficient i (in-place over the list, so
later coefficients in the same sweep already see the updated value, exactly
as the source's nested loop does). -/
def gsUpdate (X : List (List ℚ)) (y : List ℚ) (msize : ℕ) (coeffs : List ℚ) (i : ℕ) :
    List ℚ :=
  let s := xtyEntry X y i -
    ((List.range msize).map (fun j => if j = i then 0 else xtxEntry X i j * coeffs.getD j 0)).sum
  if eps < |xtxEntry X i i| then coeffs.set i (s / xtxEntry X i i) else coeffs

/-- One full sweep over all msize coefficients. -/
def gsSweep (X : List (List ℚ)) (y : List ℚ) (msize : ℕ) (coeffs : List ℚ) : List ℚ :=
  (List.range msize).foldl (gsUpdate X y msize) coeffs

/-- solvePolynomial: coefficients start at zero and 100 Gauss-Seidel sweeps
are run with no convergence check. -/
def solvePolynomial (X : List (List ℚ)) (y : List ℚ) : List ℚ :=
  let msize := (X.headD []).length
  (List.range 100).foldl (fun c _ => gsSweep X y msize c) (List.replicate msize 0)

/-- Traffic-level feature of an observation:
`(point.traffic_level as number) || 0.5` maps both a missing value and an
exact 0 to the default 0.5. -/
def trafficFeature : Option ℚ → ℚ
  | none => 1 / 2
  | some v => if v = 0 then 1 / 2 else v

/-- Coefficients returned by fitLinearModel3D. -/
structure Lin3Coeffs where
  intercept : ℚ
  x1Coeff : ℚ
  x2Coeff : ℚ
  x3Coeff : ℚ
deriving DecidableEq, Repr

/-- Design-matrix row [1, x1, x2, x3] of fitLinearModel3D. -/
def linRow3 (o : Obs) : List ℚ :=
  [1, o.input_avg_len, o.output_avg_len, trafficFeature o.traffic_level]

/-- fitLinearModel3D, server.ts 848-878 (coeffs read back with `|| 0`). -/
def fitLinearModel3D (data : List Obs) (m : Metric) : Lin3Coeffs :=
  let coeffs := solvePolynomial (data.map linRow3) (data.map (statD · m))
  { intercept := coeffs.getD 0 0
    x1Coeff := coeffs.getD 1 0
    x2Coeff := coeffs.getD 2 0
    x3Coeff := coeffs.getD 3 0 }

/-- Evaluation of a 3-feature linear fit at a target point. -/
def evalLin3 (c : Lin3Coeffs) (tin tout ttr : ℚ) : ℚ :=
  c.intercept + c.x1Coeff * tin + c.x2Coeff * tout + c.x3Coeff * ttr

/-- Coefficients returned by fitPolynomialModel (2-feature quadratic). -/
structure Poly2Coeffs where
  intercept : ℚ
  x1 : ℚ
  x2 : ℚ
  x1_sq : ℚ
  x2_sq : ℚ
  x1x2 : ℚ
deriving DecidableEq, Repr

/-- Design-matrix row [1, x1, x2, x1², x2², x1·x2] of fitPolynomialModel. -/
def polyRow2 (o : Obs) : List ℚ :=
  [1, o.input_avg_len, o.output_avg_len,
   o.input_avg_len * o.input_avg_len, o.output_avg_len * o.output_avg_len,
   o.input_avg_len * o.output_avg_len]

/-- fitPolynomialModel, server.ts 672-704. -/
def fitPolynomialModel (data : List Obs) (m : Metric) : Poly2Coeffs :=
  let coeffs := solvePolynomial (data.map polyRow2) (data.map (statD · m))
  { intercept := coeffs.getD 0 0
    x1 := coeffs.getD 1 0
    x2 := coeffs.getD 2 0
    x1_sq := coeffs.getD 3 0
    x2_sq := coeffs.getD 4 0
    x1x2 := coeffs.getD 5 0 }

/-- Evaluation of a 2-feature quadratic fit at a target point. -/
def evalPoly2 (c : Poly2Coeffs) (tin tout : ℚ) : ℚ :=
  c.intercept + c.x1 * tin + c.x2 * tout +
    c.x1_sq * tin * tin + c.x2_sq * tout * tout + c.x1x2 * tin * tout

/-- Coefficients returned by fitPolynomialModel3D (3-feature quadratic). -/
structure Poly3Coeffs where
  intercept : ℚ
  x1 : ℚ
  x2 : ℚ
  x3 : ℚ
  x1_sq : ℚ
  x2_sq : ℚ
  x3_sq : ℚ
  x1x2 : ℚ
  x1x3 : ℚ
  x2x3 : ℚ
deriving DecidableEq, Repr

/-- Design-matrix row [1,x1,x2,x3,x1²,x2²,x3²,x1x2,x1x3,x2x3]. -/
def polyRow3 (o : Obs) : List ℚ :=
  [1, o.input_avg_len, o.output_avg_len, trafficFeature o.traffic_level,
   o.input_avg_len * o.input_avg_len, o.output_avg_len * o.output_avg_len,
   trafficFeature o.traffic_level * trafficFeature o.traffic_level,
   o.input_avg_len * o.output_avg_len,
   o.input_avg_len * trafficFeature o.traffic_level,
   o.output_avg_len * trafficFeature o.traffic_level]

/-- fitPolynomialModel3D, server.ts 706-742. -/
def fitPolynomialModel3D (data : List Obs) (m : Metric) : Poly3Coeffs :=
  let coeffs := solvePolynomial (data.map polyRow3) (data.map (statD · m))
  { intercept := coeffs.getD 0 0
    x1 := coeffs.getD 1 0
    x2 := coeffs.getD 2 0
    x3 := coeffs.getD 3 0
    x1_sq := coeffs.getD 4 0
    x2_sq := coeffs.getD 5 0
    x3_sq := coeffs.getD 6 0
    x1x2 := coeffs.getD 7 0
    x1x3 := coeffs.getD 8 0
    x2x3 := coeffs.getD 9 0 }

/-- Evaluation of a 3-feature quadratic fit at a target point. -/
def evalPoly3 (c : Poly3Coeffs) (tin tout ttr : ℚ) : ℚ :=
  c.intercept + c.x1 * tin + c.x2 * tout + c.x3 * ttr +
    c.x1_sq * tin * tin + c.x2_sq * tout * tout + c.x3_sq * ttr * ttr +
    c.x1x2 * tin * tout + c.x1x3 * tin * ttr + c.x2x3 * tout * ttr

/- ---------------------------------------------------------------------
Mechanistic E2E-mean deriver, server.ts 651-670.
--------------------------------------------------------------------- -/

/-- safeDivide of the source: over ℚ the guard
`!denominator || denominator <= 0 || !isFinite(denominator)` collapses to
`denominator <= 0`, and `isFinite(result)` is always true. -/
def safeDivide (num den fallback : ℚ) : ℚ :=
  if den ≤ 0 then fallback else num / den

/-- calculateE2EMeanMechanistically, server.ts 651-670: generation time is
`safeDivide(outputTokens, user_tps_mean, outputTokens * 10) * 1000`; the
final guard replaces a negative (or, in JS, non-finite) result with
`ttft_mean + outputTokens * 10`. -/
def calculateE2EMeanMechanistically (ttft user_tps outputTokens : ℚ) : ℚ :=
  let genTimeMs := safeDivide outputTokens user_tps (outputTokens * 10) * 1000
  let e2e := ttft + genTimeMs
  if e2e < 0 then ttft + outputTokens * 10 else e2e

/- ---------------------------------------------------------------------
The three interpolation routines over the 25 statistics.
--------------------------------------------------------------------- -/

/-- performSimpleAveraging, server.ts 357-373: plain arithmetic mean of each
statistic (missing values read as 0). -/
def performSimpleAveraging (benchmarks : List Obs) : Metric → ℚ :=
  fun m => (benchmarks.map (statD · m)).sum / (benchmarks.length : ℚ)

/-- performMultivariateInterpolation, server.ts 528-643: with a traffic
level every statistic (e2e_mean included) is the clamped 3-feature linear
fit; without one, every statistic except e2e_mean is the clamped 2-feature
linear fit and e2e_mean is derived mechanistically from the clamped
ttft_mean and user_tps_mean predictions. -/
def performMultivariateInterpolation (benchmarks : List Obs)
    (targetInput targetOutput : ℚ) (targetTraffic : Option ℚ) : Metric → ℚ :=
  fun m =>
    match targetTraffic with
    | some tr => max 0 (evalLin3 (fitLinearModel3D benchmarks m) targetInput targetOutput tr)
    | none =>
      match m with
      | .e2e_mean =>
        calculateE2EMeanMechanistically
          (max 0 (evalLin2 (fitLinearModel benchmarks .ttft_mean) targetInput targetOutput))
          (max 0 (evalLin2 (fitLinearModel benchmarks .user_tps_mean) targetInput targetOutput))
          targetOutput
      | _ => max 0 (evalLin2 (fitLinearModel benchmarks m) targetInput targetOutput)

/-- performPolynomialInterpolation, server.ts 375-526: same shape as the
linear variant with quadratic fits. -/
def performPolynomialInterpolation (benchmarks : List Obs)
    (targetInput targetOutput : ℚ) (targetTraffic : Option ℚ) : Metric → ℚ :=
  fun m =>
    match targetTraffic with
    | some tr => max 0 (evalPoly3 (fitPolynomialModel3D benchmarks m) targetInput targetOutput tr)
    | none =>
      match m with
      | .e2e_mean =>
        calculateE2EMeanMechanistically
          (max 0 (evalPoly2 (fitPolynomialModel benchmarks .ttft_mean) targetInput targetOutput))
          (max 0 (evalPoly2 (fitPolynomialModel benchmarks .user_tps_mean) targetInput targetOutput))
          targetOutput
      | _ => max 0 (evalPoly2 (fitPolynomialModel benchmarks m) targetInput targetOutput)

/- ---------------------------------------------------------------------
Confidence scorer, server.ts 880-916.
--------------------------------------------------------------------- -/

/-- Maximum of a list of rationals (Math.max over a spread; the source only
applies it to the non-empty benchmark list, the empty case is unreachable
there and the value below is never consulted for it, see
calculateConfidence). -/
def listMax : List ℚ → ℚ
  | [] => 0
  | x :: xs => xs.foldl max x

/-- Minimum of a list of rationals (Math.min over a spread). -/
def listMin : List ℚ → ℚ
  | [] => 0
  | x :: xs => xs.foldl min x

/-- Span of the observed input token values. -/
def inputRange (benchmarks : List Obs) : ℚ :=
  listMax (benchmarks.map (·.input_avg_len)) - listMin (benchmarks.map (·.input_avg_len))

/-- Span of the observed output token values. -/
def outputRange (benchmarks : List Obs) : ℚ :=
  listMax (benchmarks.map (·.output_avg_len)) - listMin (benchmarks.map (·.output_avg_len))

/-- Squared normalized distance of one observation to the target (the source
computes Math.sqrt of this and compares with 0.1 / 0.3; we keep the square
and compare with the squared thresholds, an equivalent formulation). -/
def confDistSq (benchmarks : List Obs) (tin tout : ℚ) (b : Obs) : ℚ :=
  let iD := if 0 < inputRange benchmarks then |b.input_avg_len - tin| / inputRange benchmarks else 0
  let oD := if 0 < outputRange benchmarks then |b.output_avg_len - tout| / outputRange benchmarks else 0
  iD * iD + oD * oD

/-- Whether the target falls outside the observed min/max envelope. -/
def isExtrapolating (benchmarks : List Obs) (tin tout : ℚ) : Prop :=
  tin < listMin (benchmarks.map (·.input_avg_len)) ∨
  listMax (benchmarks.map (·.input_avg_len)) < tin ∨
  tout < listMin (benchmarks.map (·.output_avg_len)) ∨
  listMax (benchmarks.map (·.output_avg_len)) < tout

instance (benchmarks : List Obs) (tin tout : ℚ) :
    Decidable (isExtrapolating benchmarks tin tout) := by
  unfold isExtrapolating; infer_instance

/-- calculateConfidence, server.ts 880-916.  The minimum distance starts at
Infinity and is folded with Math.min; for an empty observation list both
threshold tests on Infinity fail and the result is low, which the empty
match arm reproduces. -/
def calculateConfidence (benchmarks : List Obs) (tin tout : ℚ) : Confidence :=
  match benchmarks.map (confDistSq benchmarks tin tout) with
  | [] => .low
  | d :: ds =>
    let minDistSq := ds.foldl min d
    if minDistSq < 1 / 100 ∧ ¬ isExtrapolating benchmarks tin tout then .high
    else if minDistSq < 9 / 100 ∨ ¬ isExtrapolating benchmarks tin tout then .medium
    else .low

/- ---------------------------------------------------------------------
Method selection and dispatch, server.ts 170-355 (predictPerformance after
the DB query) and 207-286 (predictAutoDetect, detectLinearity,
calculateR2).
--------------------------------------------------------------------- -/

/-- Number of distinct nearest-integer-rounded input token values. -/
def uniqueInputs (benchmarks : List Obs) : ℕ :=
  ((benchmarks.map (fun b => jsRound b.input_avg_len)).dedup).length

/-- Number of distinct nearest-integer-rounded output token values. -/
def uniqueOutputs (benchmarks : List Obs) : ℕ :=
  ((benchmarks.map (fun b => jsRound b.output_avg_len)).dedup).length

/-- hasVariation: at least two distinct rounded inputs or outputs. -/
def hasVariation (benchmarks : List Obs) : Prop :=
  2 ≤ uniqueInputs benchmarks ∨ 2 ≤ uniqueOutputs benchmarks

instance (benchmarks : List Obs) : Decidable (hasVariation benchmarks) := by
  unfold hasVariation; infer_instance

/-- The two fit shapes compared by calculateR2. -/
inductive FitType
  | linear | polynomial
deriving DecidableEq, Repr

/-- calculateR2, server.ts 250-286: coefficient of determination of one fit
on the observation set itself, 0 for fewer than 2 points or zero total
variance, clamped to be nonnegative. -/
def calculateR2 (data : List Obs) (metric : Metric) (t : FitType) : ℚ :=
  if data.length < 2 then 0 else
  let yActual := data.map (statD · metric)
  let yMean := yActual.sum / (data.length : ℚ)
  let yPredicted :=
    match t with
    | .linear => data.map (fun d => evalLin2 (fitLinearModel data metric) d.input_avg_len d.output_avg_len)
    | .polynomial => data.map (fun d => evalPoly2 (fitPolynomialModel data metric) d.input_avg_len d.output_avg_len)
  let ssRes := ((yActual.zip yPredicted).map (fun p => (p.1 - p.2) ^ 2)).sum
  let ssTot := (yActual.map (fun v => (v - yMean) ^ 2)).sum
  if ssTot = 0 then 0 else max 0 (1 - ssRes / ssTot)

/-- detectLinearity, server.ts 240-248. -/
def detectLinearity (benchmarks : List Obs) : Prop :=
  calculateR2 benchmarks .ttft_mean .polynomial - calculateR2 benchmarks .ttft_mean .linear < 1 / 10 ∨
  85 / 100 < calculateR2 benchmarks .ttft_mean .linear

instance (benchmarks : List Obs) : Decidable (detectLinearity benchmarks) := by
  unfold detectLinearity; infer_instance

/-- predictWithAverage, server.ts 343-355: simple averaging, confidence
always low. -/
def predictWithAverage (benchmarks : List Obs) (request : ModelingRequest) : ModelingResult :=
  { model := request.model
    input_tokens := request.input_tokens
    output_tokens := request.output_tokens
    predictions := performSimpleAveraging benchmarks
    confidence := .low
    num_benchmarks_used := benchmarks.length
    interpolation_method := "simple_average" }

/-- predictWithLinear, server.ts 318-341. -/
def predictWithLinear (benchmarks : List Obs) (request : ModelingRequest) : ModelingResult :=
  { model := request.model
    input_tokens := request.input_tokens
    output_tokens := request.output_tokens
    predictions := performMultivariateInterpolation benchmarks request.input_tokens
      request.output_tokens request.traffic_level
    confidence := calculateConfidence benchmarks request.input_tokens request.output_tokens
    num_benchmarks_used := benchmarks.length
    interpolation_method := "multivariate_linear" }

/-- predictWithPolynomial, server.ts 288-316: confidence overridden to low
when fewer than 3 observations were used. -/
def predictWithPolynomial (benchmarks : List Obs) (request : ModelingRequest) : ModelingResult :=
  { model := request.model
    input_tokens := request.input_tokens
    output_tokens := request.output_tokens
    predictions := performPolynomialInterpolation benchmarks request.input_tokens
      request.output_tokens request.traffic_level
    confidence :=
      if benchmarks.length < 3 then .low
      else calculateConfidence benchmarks request.input_tokens request.output_tokens
    num_benchmarks_used := benchmarks.length
    interpolation_method := "polynomial_regression" }

/-- predictAutoDetect, server.ts 207-238. -/
def predictAutoDetect (benchmarks : List Obs) (request : ModelingRequest) : ModelingResult :=
  if benchmarks.length = 1 ∨ ¬ hasVariation benchmarks then
    { predictWithAverage benchmarks request with interpolation_method := "auto_simple_average" }
  else if benchmarks.length < 3 then
    { predictWithLinear benchmarks request with interpolation_method := "auto_linear" }
  else if detectLinearity benchmarks then
    { predictWithLinear benchmarks request with interpolation_method := "auto_linear" }
  else
    { predictWithPolynomial benchmarks request with interpolation_method := "auto_polynomial" }

/-- Method override of predictPerformance, server.ts 170-186: a single
observation or no rounded variation forces average; fewer than 3
observations downgrade a polynomial request to linear. -/
def effectiveMethod (benchmarks : List Obs) (request : ModelingRequest) : PredictionMethod :=
  let method := request.method.getD .auto_detect
  if benchmarks.length = 1 ∨ ¬ hasVariation benchmarks then .average
  else if benchmarks.length < 3 ∧ method = .polynomial then .linear
  else method

/-- Dispatch on the effective method, server.ts 188-204 (the default arm of
the switch also falls through to auto-detect and is unreachable for the
validated enum). -/
def dispatch (benchmarks : List Obs) (request : ModelingRequest) :
    PredictionMethod → ModelingResult
  | .auto_detect => predictAutoDetect benchmarks request
  | .polynomial => predictWithPolynomial benchmarks request
  | .linear => predictWithLinear benchmarks request
  | .average => predictWithAverage benchmarks request

/-- predictPerformance after the DB query, server.ts 146-205: none when no
benchmark rows exist for the model, otherwise the dispatched prediction. -/
def predictPerformance (benchmarks : List Obs) (request : ModelingRequest) :
    Option ModelingResult :=
  if benchmarks.length = 0 then none
  else some (dispatch benchmarks request (effectiveMethod benchmarks request))

/-- The resolved method name recorded on the returned result (empty string
only in the no-data case). -/
def resolvedMethod (benchmarks : List Obs) (request : ModelingRequest) : String :=
  ((predictPerformance benchmarks request).map (·.interpolation_method)).getD ""

/-- Arithmetic mean of a list of values (the spec's description of the
average fitter). -/
def arithMean (l : List ℚ) : ℚ := l.sum / (l.length : ℚ)

/- ---------------------------------------------------------------------
Concrete inputs used by the witnesses and counterexamples below.
--------------------------------------------------------------------- -/

/-- An observation with no recorded statistics. -/
def obsBlank (i o : ℚ) : Obs := ⟨i, o, none, fun _ => none⟩

/-- An observation recording only a ttft_mean statistic. -/
def obsTtft (i o v : ℚ) : Obs :=
  ⟨i, o, none, fun m => if m = .ttft_mean then some v else none⟩

/-- An observation recording ttft_mean 100 ms and user_tps_mean 50 tok/s. -/
def obsMech : Obs :=
  ⟨10, 20, none, fun m =>
    match m with
    | .ttft_mean => some 100
    | .user_tps_mean => some 50
    | _ => none⟩

/-- A single blank observation. -/
def demoSingle : List Obs := [obsBlank 10 20]

/-- A single observation with known ttft and tps. -/
def demoMech : List Obs := [obsMech]

/-- Two observations on the plane y = 5 + 2·input + 3·output whose centered
normal-equation system is singular. -/
def planeSingular : List Obs := [obsTtft 0 0 5, obsTtft 1 1 10]

/-- Three observations on the plane y = 5 + 2·input + 3·output in general
position. -/
def planeGeneric : List Obs := [obsTtft 0 0 5, obsTtft 1 0 7, obsTtft 0 1 8]

/-- Two observations with ttft_mean 100 and 200. -/
def demoAvgPair : List Obs := [obsTtft 0 0 100, obsTtft 10 10 200]

/-- Two observations whose input token values differ but round to the same
integer. -/
def roundPair : List Obs := [obsBlank (501 / 5) 50, obsBlank (502 / 5) 50]

/-- Two observations with clearly distinct token values. -/
def varPair : List Obs := [obsBlank 0 0, obsBlank 100 50]

/-- Two observations used by the confidence witnesses. -/
def confPair : List Obs := [obsBlank 1 2, obsBlank 3 4]

/-- A request leaving the method unspecified (auto-detect). -/
def reqAuto : ModelingRequest := ⟨"m", 1, 2, none, none⟩

/-- A request explicitly asking for the polynomial method. -/
def reqPoly : ModelingRequest := ⟨"m", 1, 2, none, some .polynomial⟩

/- =====================================================================
Helper lemmas.
===================================================================== -/

theorem foldl_min_le_init : ∀ (l : List ℚ) (a : ℚ), l.foldl min a ≤ a := by
  intro l
  induction l with
  | nil => intro a; simp
  | cons x xs ih =>
    intro a
    exact le_trans (ih (min a x)) (min_le_left a x)

theorem foldl_min_le_mem : ∀ (l : List ℚ) (a x : ℚ), x ∈ l → l.foldl min a ≤ x := by
  intro l
  induction l with
  | nil => intro a x hx; cases hx
  | cons y ys ih =>
    intro a x hx
    rcases List.mem_cons.mp hx with h | h
    · subst h
      exact le_trans (foldl_min_le_init ys (min a x)) (min_le_right a x)
    · exact ih (min a y) x h

theorem le_foldl_min : ∀ (l : List ℚ) (a c : ℚ), c ≤ a → (∀ x ∈ l, c ≤ x) → c ≤ l.foldl min a := by
  intro l
  induction l with
  | nil => intro a c ha _; simpa using ha
  | cons y ys ih =>
    intro a c ha hl
    exact ih (min a y) c (le_min ha (hl y (List.mem_cons_self y ys)))
      (fun x hx => hl x (List.mem_cons_of_mem y hx))

theorem le_foldl_max_init : ∀ (l : List ℚ) (a : ℚ), a ≤ l.foldl max a := by
  intro l
  induction l with
  | nil => intro a; simp
  | cons x xs ih =>
    intro a
    exact le_trans (le_max_left a x) (ih (max a x))

theorem mem_le_foldl_max : ∀ (l : List ℚ) (a x : ℚ), x ∈ l → x ≤ l.foldl max a := by
  intro l
  induction l with
  | nil => intro a x hx; cases hx
  | cons y ys ih =>
    intro a x hx
    rcases List.mem_cons.mp hx with h | h
    · subst h
      exact le_trans (le_max_right a x) (le_foldl_max_init ys (max a x))
    · exact ih (max a y) x h

theorem listMin_le_mem (l : List ℚ) (x : ℚ) (hx : x ∈ l) : listMin l ≤ x := by
  cases l with
  | nil => cases hx
  | cons y ys =>
    rcases List.mem_cons.mp hx with h | h
    · subst h; exact foldl_min_le_init ys x
    · exact foldl_min_le_mem ys y x h

theorem mem_le_listMax (l : List ℚ) (x : ℚ) (hx : x ∈ l) : x ≤ listMax l := by
  cases l with
  | nil => cases hx
  | cons y ys =>
    rcases List.mem_cons.mp hx with h | h
    · subst h; exact le_foldl_max_init ys x
    · exact mem_le_foldl_max ys y x h

/-- In the positive-throughput case the mechanistic deriver computes
ttft + (out / tps) · 1000. -/
theorem mech_eval_pos (ttft tps out : ℚ) (h1 : 0 ≤ ttft) (h2 : 0 < tps) (h3 : 0 ≤ out) :
    calculateE2EMeanMechanistically ttft tps out = ttft + out / tps * 1000 := by
  have hle : ¬ tps ≤ 0 := not_le.mpr h2
  have hgen : 0 ≤ out / tps * 1000 :=
    mul_nonneg (div_nonneg h3 h2.le) (by norm_num)
  simp only [calculateE2EMeanMechanistically, safeDivide, if_neg hle]
  rw [if_neg (not_lt.mpr (by linarith))]

/-- The mechanistic deriver never returns a negative value when the
predicted ttft and the target output count are nonnegative. -/
theorem mech_nonneg (ttft tps out : ℚ) (h1 : 0 ≤ ttft) (h3 : 0 ≤ out) :
    0 ≤ calculateE2EMeanMechanistically ttft tps out := by
  simp only [calculateE2EMeanMechanistically, safeDivide]
  split_ifs with h hneg hneg
  · linarith
  · linarith
  · linarith
  · exact not_lt.mp hneg

/- =====================================================================
Claim theorems.
===================================================================== -/

/-- C1 (code_bug evidence): at predicted ttft_mean = 100 ms, predicted
user_tps_mean = 0 (non-positive, so the fallback applies) and
output_tokens = 200, the deriver returns 100 + 200·10·1000 = 2000100 ms:
the substituted generation time output_tokens·10 is multiplied by the
seconds-to-milliseconds factor 1000 as well, so the result is not the
ttft_mean + output_tokens·10 = 2100 ms that the claim (and the code's own
sibling fallback comment) states. -/
theorem calculateE2EMean_fallback_eval :
    calculateE2EMeanMechanistically 100 0 200 = 2000100 ∧
    calculateE2EMeanMechanistically 100 0 200 ≠ 100 + 200 * 10 := by
  constructor <;> norm_num [calculateE2EMeanMechanistically, safeDivide]

/-- C4: when no traffic level is supplied and the predicted user_tps_mean is
positive, the returned e2e_mean equals ttft_mean + (output_tokens /
user_tps_mean) · 1000 ms — stated for the mechanistic deriver itself and for
the e2e_mean produced by both interpolation routines. -/
theorem e2e_mechanistic_formula (bs : List Obs) (tin tout : ℚ) (hout : 0 ≤ tout) :
    (∀ ttft tps : ℚ, 0 ≤ ttft → 0 < tps →
      calculateE2EMeanMechanistically ttft tps tout = ttft + tout / tps * 1000) ∧
    (0 < performMultivariateInterpolation bs tin tout none .user_tps_mean →
      performMultivariateInterpolation bs tin tout none .e2e_mean =
        performMultivariateInterpolation bs tin tout none .ttft_mean +
          tout / performMultivariateInterpolation bs tin tout none .user_tps_mean * 1000) ∧
    (0 < performPolynomialInterpolation bs tin tout none .user_tps_mean →
      performPolynomialInterpolation bs tin tout none .e2e_mean =
        performPolynomialInterpolation bs tin tout none .ttft_mean +
          tout / performPolynomialInterpolation bs tin tout none .user_tps_mean * 1000) := by
  refine ⟨fun ttft tps h1 h2 => mech_eval_pos ttft tps tout h1 h2 hout, ?_, ?_⟩
  · intro htps
    exact mech_eval_pos _ _ _ (le_max_left _ _) htps hout
  · intro htps
    exact mech_eval_pos _ _ _ (le_max_left _ _) htps hout

/-- On a single observation the 2-feature linear fit is singular and
degenerates to the observed statistic with zero slopes. -/
theorem fitLinearModel_singleton (o : Obs) (m : Metric) :
    fitLinearModel [o] m = ⟨statD o m, 0, 0⟩ := by
  norm_num [fitLinearModel, meanX1, meanX2, meanY, varX1, varX2, covX1X2, covX1Y, covX2Y,
    linDenom, eps]

/-- Concrete evaluation: on the single observation demoMech the 2-feature
linear fit degenerates to the observed ttft_mean, 100. -/
theorem demoMech_ttft_eval :
    performMultivariateInterpolation demoMech 7 200 none .ttft_mean = 100 := by
  show max 0 (evalLin2 (fitLinearModel demoMech .ttft_mean) 7 200) = 100
  rw [show demoMech = [obsMech] from rfl, fitLinearModel_singleton]
  norm_num [evalLin2, statD, obsMech]

/-- Concrete evaluation: on demoMech the fit degenerates to the observed
user_tps_mean, 50. -/
theorem demoMech_tps_eval :
    performMultivariateInterpolation demoMech 7 200 none .user_tps_mean = 50 := by
  show max 0 (evalLin2 (fitLinearModel demoMech .user_tps_mean) 7 200) = 50
  rw [show demoMech = [obsMech] from rfl, fitLinearModel_singleton]
  norm_num [evalLin2, statD, obsMech]

/-- C4 witness: ttft_mean = 100 ms, user_tps_mean = 50 tok/s,
output_tokens = 200 yield e2e_mean = 4100 ms, both for the deriver alone
and inside the linear interpolation routine. -/
theorem e2e_mechanistic_formula_witness :
    calculateE2EMeanMechanistically 100 50 200 = 4100 ∧
    performMultivariateInterpolation demoMech 7 200 none .e2e_mean = 4100 := by
  constructor
  · exact ((e2e_mechanistic_formula [] 0 200 (by norm_num)).1 100 50 (by norm_num)
      (by norm_num)).trans (by norm_num)
  · have h := (e2e_mechanistic_formula demoMech 7 200 (by norm_num)).2.1
      (by rw [demoMech_tps_eval]; norm_num)
    rw [h, demoMech_ttft_eval, demoMech_tps_eval]
    norm_num

/-- C8: when a target traffic level is supplied, the returned e2e_mean is
the clamped 3-feature regression value, for the linear and the polynomial
fitter alike; the mechanistic formula is not applied to it. -/
theorem e2e_with_traffic_regression (bs : List Obs) (tin tout tr : ℚ) (hne : bs ≠ []) :
    performMultivariateInterpolation bs tin tout (some tr) .e2e_mean =
      max 0 (evalLin3 (fitLinearModel3D bs .e2e_mean) tin tout tr) ∧
    performPolynomialInterpolation bs tin tout (some tr) .e2e_mean =
      max 0 (evalPoly3 (fitPolynomialModel3D bs .e2e_mean) tin tout tr) :=
  ⟨rfl, rfl⟩

/-- C8 witness: the regression equality at a concrete observation set and
target. -/
theorem e2e_with_traffic_regression_witness :
    performMultivariateInterpolation demoSingle 1 2 (some 3) .e2e_mean =
      max 0 (evalLin3 (fitLinearModel3D demoSingle .e2e_mean) 1 2 3) ∧
    performPolynomialInterpolation demoSingle 1 2 (some 3) .e2e_mean =
      max 0 (evalPoly3 (fitPolynomialModel3D demoSingle .e2e_mean) 1 2 3) :=
  e2e_with_traffic_regression demoSingle 1 2 3 (by simp [demoSingle])

/-- C6: the average fitter returns, for every statistic, the arithmetic
mean of that statistic across all observations (missing values read as 0),
its predictions are independent of the target token pair, and it always
reports low confidence. -/
theorem predictWithAverage_spec (bs : List Obs) (req req' : ModelingRequest) (hne : bs ≠ []) :
    (∀ m, (predictWithAverage bs req).predictions m = arithMean (bs.map (statD · m))) ∧
    (predictWithAverage bs req).confidence = .low ∧
    (predictWithAverage bs req).predictions = (predictWithAverage bs req').predictions := by
  refine ⟨fun m => ?_, rfl, rfl⟩
  simp [predictWithAverage, performSimpleAveraging, arithMean]

/-- C6 witness: observations with ttft_mean 100 and 200 predict
ttft_mean = 150 with low confidence. -/
theorem predictWithAverage_spec_witness :
    (predictWithAverage demoAvgPair reqAuto).predictions .ttft_mean = 150 ∧
    (predictWithAverage demoAvgPair reqAuto).confidence = .low := by
  have h := predictWithAverage_spec demoAvgPair reqAuto reqPoly (by simp [demoAvgPair])
  refine ⟨(h.1 .ttft_mean).trans ?_, h.2.1⟩
  norm_num [arithMean, demoAvgPair, obsTtft, statD]

/-- C10: in the 3-feature linear and polynomial fits, an observation whose
traffic_level is exactly 0 is treated the same as one whose traffic_level
is absent — both read as the default feature value 0.5. -/
theorem traffic_zero_treated_as_absent (l1 l2 : List Obs) (o : Obs) (m : Metric) :
    trafficFeature (some 0) = 1 / 2 ∧ trafficFeature none = 1 / 2 ∧
    fitLinearModel3D (l1 ++ { o with traffic_level := some 0 } :: l2) m =
      fitLinearModel3D (l1 ++ { o with traffic_level := none } :: l2) m ∧
    fitPolynomialModel3D (l1 ++ { o with traffic_level := some 0 } :: l2) m =
      fitPolynomialModel3D (l1 ++ { o with traffic_level := none } :: l2) m := by
  have hrow3 : linRow3 { o with traffic_level := some 0 } =
      linRow3 { o with traffic_level := none } := by
    simp [linRow3, trafficFeature]
  have prow3 : polyRow3 { o with traffic_level := some 0 } =
      polyRow3 { o with traffic_level := none } := by
    simp [polyRow3, trafficFeature]
  have hX : (l1 ++ { o with traffic_level := some 0 } :: l2).map linRow3 =
      (l1 ++ { o with traffic_level := none } :: l2).map linRow3 := by
    simp only [List.map_append, List.map_cons, hrow3]
  have pX : (l1 ++ { o with traffic_level := some 0 } :: l2).map polyRow3 =
      (l1 ++ { o with traffic_level := none } :: l2).map polyRow3 := by
    simp only [List.map_append, List.map_cons, prow3]
  have hY : (l1 ++ { o with traffic_level := some 0 } :: l2).map (statD · m) =
      (l1 ++ { o with traffic_level := none } :: l2).map (statD · m) := by
    simp only [List.map_append, List.map_cons, statD]
  refine ⟨by norm_num [trafficFeature], rfl, ?_, ?_⟩
  · unfold fitLinearModel3D
    rw [hX, hY]
  · unfold fitPolynomialModel3D
    rw [pX, hY]

/-- C2: every one of the 25 predicted statistics is nonnegative, for each
of the three fitters and in both the 2-feature and the 3-feature variant,
given an observation set with (per the data model) nonnegative statistics
and a nonnegative target output token count. -/
theorem predictions_nonneg (bs : List Obs) (tin tout : ℚ) (ttr : Option ℚ) (m : Metric)
    (hne : bs ≠ []) (hstats : ∀ b ∈ bs, ∀ m', 0 ≤ statD b m') (hout : 0 ≤ tout) :
    0 ≤ performSimpleAveraging bs m ∧
    0 ≤ performMultivariateInterpolation bs tin tout ttr m ∧
    0 ≤ performPolynomialInterpolation bs tin tout ttr m := by
  refine ⟨?_, ?_, ?_⟩
  · unfold performSimpleAveraging
    apply div_nonneg
    · refine List.sum_nonneg ?_
      intro x hx
      obtain ⟨b, hb, rfl⟩ := List.mem_map.mp hx
      exact hstats b hb m
    · positivity
  · cases ttr with
    | some tr => exact le_max_left _ _
    | none =>
      cases m
      case e2e_mean => exact mech_nonneg _ _ _ (le_max_left _ _) hout
      all_goals exact le_max_left _ _
  · cases ttr with
    | some tr => exact le_max_left _ _
    | none =>
      cases m
      case e2e_mean => exact mech_nonneg _ _ _ (le_max_left _ _) hout
      all_goals exact le_max_left _ _

/-- C2 witness: the nonnegativity at a concrete observation set, target and
statistics. -/
theorem predictions_nonneg_witness :
    0 ≤ performSimpleAveraging demoSingle .ttft_mean ∧
    0 ≤ performMultivariateInterpolation demoSingle 1 2 none .e2e_mean ∧
    0 ≤ performPolynomialInterpolation demoSingle 1 2 none .e2e_mean := by
  have hs : ∀ b ∈ demoSingle, ∀ m', 0 ≤ statD b m' := by
    intro b hb m'
    simp only [demoSingle, List.mem_singleton] at hb
    subst hb
    simp [statD, obsBlank]
  exact ⟨(predictions_nonneg demoSingle 1 2 none .ttft_mean (by simp [demoSingle]) hs
      (by norm_num)).1,
    (predictions_nonneg demoSingle 1 2 none .e2e_mean (by simp [demoSingle]) hs
      (by norm_num)).2.1,
    (predictions_nonneg demoSingle 1 2 none .e2e_mean (by simp [demoSingle]) hs
      (by norm_num)).2.2⟩

/-- Sum of a pointwise linear combination of two list maps. -/
theorem sum_map_linear {α : Type} (l : List α) (f g : α → ℚ) (b c : ℚ) :
    (l.map fun x => b * f x + c * g x).sum = b * (l.map f).sum + c * (l.map g).sum := by
  induction l with
  | nil => simp
  | cons x xs ih =>
    simp only [List.map_cons, List.sum_cons, ih]
    ring

/-- Sum of an affine map of two features over a list. -/
theorem sum_map_affine (l : List Obs) (a b c : ℚ) :
    (l.map fun o => a + b * o.input_avg_len + c * o.output_avg_len).sum =
      (l.length : ℚ) * a + b * (l.map (·.input_avg_len)).sum +
        c * (l.map (·.output_avg_len)).sum := by
  induction l with
  | nil => simp
  | cons x xs ih =>
    simp only [List.map_cons, List.sum_cons, List.length_cons, ih]
    push_cast
    ring

/-- When every observation lies on the plane a + b·input + c·output, the
statistic mean lies on the plane over the feature means. -/
theorem meanY_plane (bs : List Obs) (m : Metric) (a b c : ℚ)
    (hplane : ∀ o ∈ bs, statD o m = a + b * o.input_avg_len + c * o.output_avg_len)
    (hne : bs ≠ []) :
    meanY bs m = a + b * meanX1 bs + c * meanX2 bs := by
  have hn : ((bs.length : ℚ)) ≠ 0 := by
    have : 0 < bs.length := List.length_pos.mpr hne
    exact_mod_cast this.ne'
  have hmap : bs.map (statD · m) =
      bs.map (fun o => a + b * o.input_avg_len + c * o.output_avg_len) :=
    List.map_congr_left hplane
  unfold meanY meanX1 meanX2
  rw [hmap, sum_map_affine]
  field_simp
  ring

/-- Plane data: covX1Y is the same linear combination of varX1 and covX1X2. -/
theorem covX1Y_plane (bs : List Obs) (m : Metric) (a b c : ℚ)
    (hplane : ∀ o ∈ bs, statD o m = a + b * o.input_avg_len + c * o.output_avg_len)
    (hne : bs ≠ []) :
    covX1Y bs m = b * varX1 bs + c * covX1X2 bs := by
  have hcong : bs.map (fun o => (o.input_avg_len - meanX1 bs) * (statD o m - meanY bs m)) =
      bs.map (fun o =>
        b * ((o.input_avg_len - meanX1 bs) * (o.input_avg_len - meanX1 bs)) +
        c * ((o.input_avg_len - meanX1 bs) * (o.output_avg_len - meanX2 bs))) := by
    refine List.map_congr_left ?_
    intro o ho
    rw [hplane o ho, meanY_plane bs m a b c hplane hne]
    ring
  unfold covX1Y
  rw [hcong, sum_map_linear]
  rfl

/-- Plane data: covX2Y is the same linear combination of covX1X2 and varX2. -/
theorem covX2Y_plane (bs : List Obs) (m : Metric) (a b c : ℚ)
    (hplane : ∀ o ∈ bs, statD o m = a + b * o.input_avg_len + c * o.output_avg_len)
    (hne : bs ≠ []) :
    covX2Y bs m = b * covX1X2 bs + c * varX2 bs := by
  have hcong : bs.map (fun o => (o.output_avg_len - meanX2 bs) * (statD o m - meanY bs m)) =
      bs.map (fun o =>
        b * ((o.input_avg_len - meanX1 bs) * (o.output_avg_len - meanX2 bs)) +
        c * ((o.output_avg_len - meanX2 bs) * (o.output_avg_len - meanX2 bs))) := by
    refine List.map_congr_left ?_
    intro o ho
    rw [hplane o ho, meanY_plane bs m a b c hplane hne]
    ring
  unfold covX2Y
  rw [hcong, sum_map_linear]
  rfl

/-- C5 counterexample: two observations lying exactly on the plane
y = 5 + 2·input + 3·output make the centered normal-equation system
singular; the fallback one-dimensional regressions return inputCoeff = 5
(not within 1e-6 of 2) and the prediction at target (2, 0) is 12.5 (not
within 1e-6 of the plane value 9), refuting the claim as stated for all
observation sets on the plane. -/
theorem linear_plane_singular_counterexample :
    (∀ o ∈ planeSingular,
      statD o .ttft_mean = 5 + 2 * o.input_avg_len + 3 * o.output_avg_len) ∧
    ¬ (|(fitLinearModel planeSingular .ttft_mean).inputCoeff - 2| ≤ 1 / 1000000) ∧
    ¬ (|evalLin2 (fitLinearModel planeSingular .ttft_mean) 2 0 - (5 + 2 * 2 + 3 * 0)| ≤
        1 / 1000000) := by
  have hfit : fitLinearModel planeSingular .ttft_mean = ⟨5 / 2, 5, 5⟩ := by
    norm_num [fitLinearModel, planeSingular, obsTtft, statD, meanX1, meanX2, meanY,
      varX1, varX2, covX1X2, covX1Y, covX2Y, linDenom, eps]
  refine ⟨?_, ?_, ?_⟩
  · intro o ho
    simp only [planeSingular, List.mem_cons, List.mem_singleton, List.not_mem_nil,
      or_false] at ho
    rcases ho with rfl | rfl <;> norm_num [obsTtft, statD]
  · rw [hfit]
    norm_num
  · rw [hfit]
    norm_num [evalLin2]
    rw [show |(7:ℚ) / 2| = 7 / 2 from abs_of_pos (by norm_num)]
    norm_num

/-- C5 (amended): for every observation set lying exactly on the plane
y = 5 + 2·input + 3·output whose centered normal-equation determinant
exceeds the 1e-10 singularity threshold, fitLinearModel recovers the
coefficients (5, 2, 3) exactly (hence within 1e-6) and its prediction at
every target lies exactly on the plane. -/
theorem fitLinearModel_plane_exact (bs : List Obs) (m : Metric)
    (hplane : ∀ o ∈ bs, statD o m = 5 + 2 * o.input_avg_len + 3 * o.output_avg_len)
    (hdenom : eps < |linDenom bs|) :
    (fitLinearModel bs m).intercept = 5 ∧ (fitLinearModel bs m).inputCoeff = 2 ∧
    (fitLinearModel bs m).outputCoeff = 3 ∧
    ∀ tin tout, evalLin2 (fitLinearModel bs m) tin tout = 5 + 2 * tin + 3 * tout := by
  have hne : bs ≠ [] := by
    intro h
    subst h
    norm_num [linDenom, varX1, varX2, covX1X2, eps] at hdenom
  have hd0 : linDenom bs ≠ 0 := by
    intro h
    rw [h] at hdenom
    norm_num [eps] at hdenom
  have h1 := covX1Y_plane bs m 5 2 3 hplane hne
  have h2 := covX2Y_plane bs m 5 2 3 hplane hne
  have h3 := meanY_plane bs m 5 2 3 hplane hne
  have hinputN : covX1Y bs m * varX2 bs - covX2Y bs m * covX1X2 bs = 2 * linDenom bs := by
    rw [h1, h2]
    unfold linDenom
    ring
  have houtputN : covX2Y bs m * varX1 bs - covX1Y bs m * covX1X2 bs = 3 * linDenom bs := by
    rw [h1, h2]
    unfold linDenom
    ring
  have hIC : (fitLinearModel bs m).inputCoeff = 2 := by
    show (if eps < |linDenom bs| then
        (covX1Y bs m * varX2 bs - covX2Y bs m * covX1X2 bs) / linDenom bs
      else if 0 < varX1 bs then covX1Y bs m / varX1 bs else 0) = 2
    rw [if_pos hdenom, hinputN, mul_div_assoc, div_self hd0, mul_one]
  have hOC : (fitLinearModel bs m).outputCoeff = 3 := by
    show (if eps < |linDenom bs| then
        (covX2Y bs m * varX1 bs - covX1Y bs m * covX1X2 bs) / linDenom bs
      else if 0 < varX2 bs then covX2Y bs m / varX2 bs else 0) = 3
    rw [if_pos hdenom, houtputN, mul_div_assoc, div_self hd0, mul_one]
  have hIrfl : (fitLinearModel bs m).intercept =
      meanY bs m - (fitLinearModel bs m).inputCoeff * meanX1 bs -
        (fitLinearModel bs m).outputCoeff * meanX2 bs := rfl
  have hI : (fitLinearModel bs m).intercept = 5 := by
    rw [hIrfl, hIC, hOC, h3]
    ring
  refine ⟨hI, hIC, hOC, fun tin tout => ?_⟩
  show (fitLinearModel bs m).intercept + (fitLinearModel bs m).inputCoeff * tin +
      (fitLinearModel bs m).outputCoeff * tout = 5 + 2 * tin + 3 * tout
  rw [hI, hIC, hOC]

/-- C5 witness: three observations on the plane in general position give a
nonsingular system and the exact coefficients (5, 2, 3). -/
theorem fitLinearModel_plane_exact_witness :
    (fitLinearModel planeGeneric .ttft_mean).intercept = 5 ∧
    (fitLinearModel planeGeneric .ttft_mean).inputCoeff = 2 ∧
    (fitLinearModel planeGeneric .ttft_mean).outputCoeff = 3 ∧
    evalLin2 (fitLinearModel planeGeneric .ttft_mean) 40 70 = 5 + 2 * 40 + 3 * 70 := by
  have hp : ∀ o ∈ planeGeneric,
      statD o .ttft_mean = 5 + 2 * o.input_avg_len + 3 * o.output_avg_len := by
    intro o ho
    simp only [planeGeneric, List.mem_cons, List.mem_singleton, List.not_mem_nil,
      or_false] at ho
    rcases ho with rfl | rfl | rfl <;> norm_num [obsTtft, statD]
  have hd : eps < |linDenom planeGeneric| := by
    norm_num [linDenom, varX1, varX2, covX1X2, meanX1, meanX2, planeGeneric, obsTtft, eps]
    rw [show |(1:ℚ) / 3| = 1 / 3 from abs_of_pos (by norm_num)]
    norm_num
  have h := fitLinearModel_plane_exact planeGeneric .ttft_mean hp hd
  exact ⟨h.1, h.2.1, h.2.2.1, h.2.2.2 40 70⟩

/-- C3: for every non-empty observation set, the resolved method is never
polynomial (nor its auto alias) when fewer than 3 observations exist, and
is simple averaging whenever fewer than 2 observations exist or the
rounded input/output token values show no variation. -/
theorem resolved_method_invariants (bs : List Obs) (req : ModelingRequest) (hne : bs ≠ []) :
    (bs.length < 3 →
      resolvedMethod bs req ≠ "polynomial_regression" ∧
      resolvedMethod bs req ≠ "auto_polynomial") ∧
    ((bs.length < 2 ∨ ¬ hasVariation bs) → resolvedMethod bs req = "simple_average") := by
  have hlen0 : ¬ bs.length = 0 := by simpa [List.length_eq_zero] using hne
  have hres : resolvedMethod bs req =
      (dispatch bs req (effectiveMethod bs req)).interpolation_method := by
    simp [resolvedMethod, predictPerformance, hlen0]
  constructor
  · intro h3
    by_cases havg : bs.length = 1 ∨ ¬ hasVariation bs
    · have heff : effectiveMethod bs req = .average := by
        simp only [effectiveMethod]
        rw [if_pos havg]
      rw [hres, heff]
      exact ⟨by simp [dispatch, predictWithAverage], by simp [dispatch, predictWithAverage]⟩
    · by_cases hpoly : bs.length < 3 ∧ req.method.getD .auto_detect = .polynomial
      · have heff : effectiveMethod bs req = .linear := by
          simp only [effectiveMethod]
          rw [if_neg havg, if_pos hpoly]
        rw [hres, heff]
        exact ⟨by simp [dispatch, predictWithLinear], by simp [dispatch, predictWithLinear]⟩
      · have heff : effectiveMethod bs req = req.method.getD .auto_detect := by
          simp only [effectiveMethod]
          rw [if_neg havg, if_neg hpoly]
        rw [hres, heff]
        cases hm : req.method.getD .auto_detect with
        | auto_detect =>
          have : dispatch bs req .auto_detect = predictAutoDetect bs req := rfl
          rw [this]
          unfold predictAutoDetect
          rw [if_neg havg, if_pos h3]
          exact ⟨by simp, by simp⟩
        | polynomial => exact absurd ⟨h3, hm⟩ hpoly
        | linear => exact ⟨by simp [dispatch, predictWithLinear], by simp [dispatch, predictWithLinear]⟩
        | average => exact ⟨by simp [dispatch, predictWithAverage], by simp [dispatch, predictWithAverage]⟩
  · intro h
    have havg : bs.length = 1 ∨ ¬ hasVariation bs := by
      rcases h with h | h
      · left; omega
      · right; exact h
    have heff : effectiveMethod bs req = .average := by
      simp only [effectiveMethod]
      rw [if_pos havg]
    rw [hres, heff]
    simp [dispatch, predictWithAverage]

/-- C3 witness: a single observation resolves to simple averaging. -/
theorem resolved_method_invariants_witness :
    resolvedMethod demoSingle reqAuto = "simple_average" ∧
    resolvedMethod demoSingle reqAuto ≠ "polynomial_regression" := by
  have h := resolved_method_invariants demoSingle reqAuto (by simp [demoSingle])
  exact ⟨h.2 (Or.inl (by norm_num [demoSingle])), (h.1 (by norm_num [demoSingle])).1⟩

/-- C7 counterexample: two observations that differ in input tokens (100.2
and 100.4) but round to the same integer make hasVariation false, so a
polynomial request resolves to simple averaging, not to linear, refuting
the claim for observation pairs that differ by less than the rounding
granularity. -/
theorem polynomial_two_obs_counterexample :
    roundPair.length = 2 ∧
    (obsBlank (501 / 5) 50).input_avg_len ≠ (obsBlank (502 / 5) 50).input_avg_len ∧
    roundPair = [obsBlank (501 / 5) 50, obsBlank (502 / 5) 50] ∧
    reqPoly.method = some .polynomial ∧
    resolvedMethod roundPair reqPoly = "simple_average" ∧
    resolvedMethod roundPair reqPoly ≠ "multivariate_linear" := by
  have hvar : ¬ hasVariation roundPair := by
    norm_num [hasVariation, uniqueInputs, uniqueOutputs, roundPair, obsBlank, jsRound]
  have heff : effectiveMethod roundPair reqPoly = .average := by
    simp only [effectiveMethod]
    rw [if_pos (Or.inr hvar)]
  have hlen0 : ¬ roundPair.length = 0 := by norm_num [roundPair]
  refine ⟨rfl, by norm_num [obsBlank], rfl, rfl, ?_, ?_⟩ <;>
    simp [resolvedMethod, predictPerformance, hlen0, heff, dispatch, predictWithAverage]

/-- C7 (amended): with exactly 2 observations whose rounded input or output
token values differ, a polynomial request resolves to the linear method. -/
theorem polynomial_two_obs_resolves_linear (bs : List Obs) (req : ModelingRequest)
    (h2 : bs.length = 2) (hvar : hasVariation bs) (hm : req.method = some .polynomial) :
    resolvedMethod bs req = "multivariate_linear" := by
  have hlen0 : ¬ bs.length = 0 := by omega
  have havg : ¬ (bs.length = 1 ∨ ¬ hasVariation bs) := by
    rw [not_or]
    exact ⟨by omega, not_not.mpr hvar⟩
  have heff : effectiveMethod bs req = .linear := by
    simp only [effectiveMethod, hm, Option.getD_some]
    rw [if_neg havg, if_pos ⟨by omega, trivial⟩]
  simp [resolvedMethod, predictPerformance, hlen0, heff, dispatch, predictWithLinear]

/-- C7 witness: two observations at (0,0) and (100,50) with a polynomial
request resolve to linear. -/
theorem polynomial_two_obs_resolves_linear_witness :
    resolvedMethod varPair reqPoly = "multivariate_linear" :=
  polynomial_two_obs_resolves_linear varPair reqPoly rfl
    (by norm_num [hasVariation, uniqueInputs, uniqueOutputs, varPair, obsBlank, jsRound]) rfl

/-- Unfolding of calculateConfidence on a non-empty observation list. -/
theorem calculateConfidence_cons (b0 : Obs) (bt : List Obs) (tin tout : ℚ) :
    calculateConfidence (b0 :: bt) tin tout =
      (if (bt.map (confDistSq (b0 :: bt) tin tout)).foldl min
            (confDistSq (b0 :: bt) tin tout b0) < 1 / 100 ∧
          ¬ isExtrapolating (b0 :: bt) tin tout then .high
       else if (bt.map (confDistSq (b0 :: bt) tin tout)).foldl min
            (confDistSq (b0 :: bt) tin tout b0) < 9 / 100 ∨
          ¬ isExtrapolating (b0 :: bt) tin tout then .medium
       else .low) := rfl

/-- The squared normalized distance is a sum of two squares. -/
theorem confDistSq_nonneg (bs : List Obs) (tin tout : ℚ) (b : Obs) :
    0 ≤ confDistSq bs tin tout b :=
  add_nonneg (mul_self_nonneg _) (mul_self_nonneg _)

/-- An observation at the target point has squared distance 0. -/
theorem confDistSq_self (bs : List Obs) (tin tout : ℚ) (b : Obs)
    (hbi : b.input_avg_len = tin) (hbo : b.output_avg_len = tout) :
    confDistSq bs tin tout b = 0 := by
  simp [confDistSq, hbi, hbo]

/-- C9: a target equal to an existing observation's token pair yields high
confidence; a target at squared normalized distance at least (0.3)² from
every observation that also lies outside the observed envelope yields low
confidence. -/
theorem confidence_high_low (bs : List Obs) (tin tout : ℚ) :
    ((∃ b ∈ bs, b.input_avg_len = tin ∧ b.output_avg_len = tout) →
      calculateConfidence bs tin tout = .high) ∧
    (bs ≠ [] → (∀ b ∈ bs, 9 / 100 ≤ confDistSq bs tin tout b) →
      isExtrapolating bs tin tout → calculateConfidence bs tin tout = .low) := by
  constructor
  · rintro ⟨b, hb, hbi, hbo⟩
    cases bs with
    | nil => exact absurd hb (List.not_mem_nil b)
    | cons b0 bt =>
      have hd0 : confDistSq (b0 :: bt) tin tout b = 0 := confDistSq_self _ _ _ _ hbi hbo
      have hmin_le : (bt.map (confDistSq (b0 :: bt) tin tout)).foldl min
          (confDistSq (b0 :: bt) tin tout b0) ≤ 0 := by
        rcases List.mem_cons.mp hb with heq | hmem
        · rw [← hd0, heq]
          exact foldl_min_le_init _ _
        · rw [← hd0]
          exact foldl_min_le_mem _ _ _ (List.mem_map_of_mem _ hmem)
      have hmin_ge : 0 ≤ (bt.map (confDistSq (b0 :: bt) tin tout)).foldl min
          (confDistSq (b0 :: bt) tin tout b0) := by
        refine le_foldl_min _ _ _ (confDistSq_nonneg _ _ _ _) ?_
        intro x hx
        obtain ⟨b', _, rfl⟩ := List.mem_map.mp hx
        exact confDistSq_nonneg _ _ _ _
      have hmin0 : (bt.map (confDistSq (b0 :: bt) tin tout)).foldl min
          (confDistSq (b0 :: bt) tin tout b0) = 0 := le_antisymm hmin_le hmin_ge
      have hin : b.input_avg_len ∈ (b0 :: bt).map (·.input_avg_len) :=
        List.mem_map_of_mem _ hb
      have hout : b.output_avg_len ∈ (b0 :: bt).map (·.output_avg_len) :=
        List.mem_map_of_mem _ hb
      have hnotext : ¬ isExtrapolating (b0 :: bt) tin tout := by
        unfold isExtrapolating
        push_neg
        refine ⟨?_, ?_, ?_, ?_⟩
        · rw [← hbi]; exact listMin_le_mem _ _ hin
        · rw [← hbi]; exact mem_le_listMax _ _ hin
        · rw [← hbo]; exact listMin_le_mem _ _ hout
        · rw [← hbo]; exact mem_le_listMax _ _ hout
      rw [calculateConfidence_cons, if_pos ⟨by rw [hmin0]; norm_num, hnotext⟩]
  · intro hne hfar hext
    cases bs with
    | nil => exact absurd rfl hne
    | cons b0 bt =>
      have hge : 9 / 100 ≤ (bt.map (confDistSq (b0 :: bt) tin tout)).foldl min
          (confDistSq (b0 :: bt) tin tout b0) := by
        refine le_foldl_min _ _ _ (hfar b0 (List.mem_cons_self b0 bt)) ?_
        intro x hx
        obtain ⟨b', hb', rfl⟩ := List.mem_map.mp hx
        exact hfar b' (List.mem_cons_of_mem b0 hb')
      rw [calculateConfidence_cons]
      rw [if_neg (fun hc => hc.2 hext)]
      rw [if_neg ?_]
      rw [not_or]
      refine ⟨not_lt.mpr (le_trans (by norm_num) hge), not_not.mpr hext⟩

/-- C9 witness: the target (1,2) coincides with an observation and scores
high; the far-outside target (100,100) scores low. -/
theorem confidence_high_low_witness :
    calculateConfidence confPair 1 2 = .high ∧
    calculateConfidence confPair 100 100 = .low := by
  constructor
  · exact (confidence_high_low confPair 1 2).1 ⟨obsBlank 1 2, by simp [confPair], rfl, rfl⟩
  · refine (confidence_high_low confPair 100 100).2 (by simp [confPair]) ?_ ?_
    · intro b hb
      simp only [confPair, List.mem_cons, List.mem_singleton, List.not_mem_nil,
        or_false] at hb
      rcases hb with rfl | rfl <;>
        norm_num [confDistSq, inputRange, outputRange, listMax, listMin, confPair, obsBlank,
          max_def, min_def]
    · norm_num [isExtrapolating, listMax, listMin, confPair, obsBlank, max_def, min_def]

end TogetherModel
